import Mathlib

/-!
Shallow embedding of `homebridge-simple-router-status` (`src/platform.ts`).

The embedding covers the four components of the polling core:

* the URL normalizer `parseUrl` (platform.ts lines 182-201), together with a
  model of the WHATWG `URL` constructor from Node's `url` module that it
  invokes (`newURL` below);
* the reachability prober `getRouterStatus` (lines 203-231), with the network
  interaction abstracted into a `NetworkEvent` (either a response carrying an
  optional status code, or a transport error that fires the request's
  `error` handler);
* the per-tick scheduler logic of `discoverDevices` (lines 101-149): the
  `onGet` handler, the `setInterval` tick body and the polling-interval
  parsing, where JavaScript promises are modelled by `Except String` values;
* the accessory reconciliation of `discoverDevices` (lines 53-180): the diff
  of the configured router list against the cached accessory list, and the
  register/unregister calls it issues.
-/

/-! ### Model of the WHATWG URL parser (Node `url` module)

`platform.ts` calls `new URL(...)` only on strings that begin with `http://`
or `https://` (case-insensitively), so the model covers exactly that family.
The model follows the WHATWG algorithms for the parts the program's
behaviour depends on: authority splitting, forbidden host code points, the
ends-in-a-number check with IPv4 host parsing and dotted-decimal
serialization, port validation, and port normalization (the port is parsed
as a number, so leading zeros are stripped, and a port equal to the scheme
default is elided to the empty string). Remaining simplifications only make
the model parser stricter on exotic inputs the program's claims do not
exercise: userinfo (`user@host`), IPv6 bracket hosts, percent-decoding,
IDNA domain mapping beyond ASCII lowercasing, and tab/newline stripping are
not modelled. A parse failure of the constructor (the thrown
`TypeError [ERR_INVALID_URL]`) is modelled by `none`.
-/

/-- Result of URL parsing: the fields of the `URL` object that
`platform.ts` reads (`protocol`, `hostname`, `port`, `pathname`). -/
structure URLRec where
  protocol : String
  hostname : String
  port : String
  pathname : String
deriving DecidableEq, Repr

/-- Scheme recognition of `/^https?:\/\//i`: if the character list starts
with `http://` or `https://` (case-insensitively), return the lowercased
scheme (with trailing colon, as in `URL.protocol`) and the remainder. -/
def schemeOf (cs : List Char) : Option (String × List Char) :=
  if (cs.take 7).map Char.toLower = "http://".data then
    some ("http:", cs.drop 7)
  else if (cs.take 8).map Char.toLower = "https://".data then
    some ("https:", cs.drop 8)
  else none

/-- Characters that terminate the authority component of a URL. -/
def isAuthorityEnd (c : Char) : Bool :=
  c == '/' || c == '?' || c == '#'

/-- Forbidden host (domain) code points per the WHATWG URL standard,
identified by code point: C0 controls and space (≤ 32), DEL (127), and
`#` `%` `/` `:` `<` `>` `?` `@` `[` `\` `]` `^` `|`. A host containing one
of these makes the `URL` constructor throw. -/
def isHostForbidden (c : Char) : Bool :=
  decide (c.toNat ≤ 32) || decide (c.toNat = 127) ||
  [35, 37, 47, 58, 60, 62, 63, 64, 91, 92, 93, 94, 124].contains c.toNat

/-- Numeric value of a list of decimal digits. -/
def digitsToNat (ds : List Char) : Nat :=
  ds.foldl (fun n c => n * 10 + (c.toNat - 48)) 0

/-- Port component validation per WHATWG: `none` is a parse failure,
`some none` means no explicit port, `some (some ds)` an explicit port with
digits `ds`. An empty port (trailing colon) counts as no port; a port with
a non-digit or a value above 65535 is a failure. -/
def parsePort (p : Option (List Char)) : Option (Option (List Char)) :=
  match p with
  | none => some none
  | some [] => some none
  | some ds =>
    if ds.all Char.isDigit && decide (digitsToNat ds ≤ 65535) then some (some ds)
    else none

/-- The pathname of a URL given everything after the authority: the part
before any query or fragment, defaulting to `/` when empty. -/
def mkPathname (cs : List Char) : String :=
  let p := cs.takeWhile (fun c => !(c == '?' || c == '#'))
  if p = [] then "/" else String.mk p

/-- Decimal digit characters of `n`, most significant first; `fuel` bounds
the recursion and is always sufficient because `n / 10 < n`. -/
def toDecimalAux : Nat → Nat → List Char → List Char
  | 0, _, acc => acc
  | fuel + 1, n, acc =>
    if n < 10 then Char.ofNat (48 + n % 10) :: acc
    else toDecimalAux fuel (n / 10) (Char.ofNat (48 + n % 10) :: acc)

/-- Canonical decimal representation of `n` (never empty), as used by the
WHATWG serializers for ports and IPv4 octets. -/
def toDecimal (n : Nat) : List Char :=
  toDecimalAux (n + 1) n []

/-- Split a character list on `.` (the WHATWG domain-label split; a
trailing dot yields a trailing empty part). -/
def splitDot : List Char → List (List Char)
  | [] => [[]]
  | c :: cs =>
    if c = '.' then [] :: splitDot cs
    else
      match splitDot cs with
      | [] => [[c]]
      | h :: t => (c :: h) :: t

/-- Octal digits `0`-`7`. -/
def isOctalDigitChar (c : Char) : Bool :=
  decide (48 ≤ c.toNat ∧ c.toNat ≤ 55)

/-- Hexadecimal digits `0`-`9`, `a`-`f`, `A`-`F`. -/
def isHexDigitChar (c : Char) : Bool :=
  c.isDigit || decide (97 ≤ c.toNat ∧ c.toNat ≤ 102) ||
  decide (65 ≤ c.toNat ∧ c.toNat ≤ 70)

/-- Value of one hexadecimal digit. -/
def hexDigitVal (c : Char) : Nat :=
  if c.isDigit then c.toNat - 48
  else if 97 ≤ c.toNat then c.toNat - 87
  else c.toNat - 55

/-- Numeric value of a hexadecimal digit list. -/
def hexVal (ds : List Char) : Nat :=
  ds.foldl (fun n c => n * 16 + hexDigitVal c) 0

/-- Numeric value of an octal digit list. -/
def octalVal (ds : List Char) : Nat :=
  ds.foldl (fun n c => n * 8 + (c.toNat - 48)) 0

/-- The WHATWG IPv4-number parser for one dot-separated label: `0x`/`0X`
selects hexadecimal (an empty rest meaning 0), a leading `0` on a longer
label selects octal, otherwise decimal; a digit outside the selected radix
is a failure. -/
def ipv4NumberParse (ds : List Char) : Option Nat :=
  match ds with
  | [] => none
  | _ :: _ =>
    if ds.take 2 = ['0', 'x'] ∨ ds.take 2 = ['0', 'X'] then
      if ds.drop 2 = [] then some 0
      else if (ds.drop 2).all isHexDigitChar then some (hexVal (ds.drop 2)) else none
    else if 2 ≤ ds.length ∧ ds.take 1 = ['0'] then
      if (ds.drop 1).all isOctalDigitChar then some (octalVal (ds.drop 1)) else none
    else if ds.all Char.isDigit then some (digitsToNat ds) else none

/-- The WHATWG ends-in-a-number checker: after dropping one trailing empty
label, the host is treated as an IPv4 address when its last label is a
run of ASCII digits or parses as an IPv4 number. -/
def endsInNumber (host : List Char) : Bool :=
  let parts := splitDot host
  let parts2 := if parts.getLast? = some [] ∧ 1 < parts.length then parts.dropLast else parts
  match parts2.getLast? with
  | none => false
  | some last =>
    if last = [] then false
    else if last.all Char.isDigit then true
    else (ipv4NumberParse last).isSome

/-- All-or-nothing sequencing of a list of optional numbers. -/
def seqOptions : List (Option Nat) → Option (List Nat)
  | [] => some []
  | none :: _ => none
  | some n :: rest =>
    match seqOptions rest with
    | none => none
    | some ns => some (n :: ns)

/-- The WHATWG IPv4 parser: at most four labels after dropping one trailing
empty label, every label an IPv4 number, every label but the last at most
255, and the last below `256 ^ (5 - count)`; the result is the 32-bit
address value. Any violation makes the `URL` constructor throw. -/
def parseIPv4 (host : List Char) : Option Nat :=
  let parts := splitDot host
  let parts2 := if parts.getLast? = some [] ∧ 1 < parts.length then parts.dropLast else parts
  if 4 < parts2.length then none
  else
    match seqOptions (parts2.map ipv4NumberParse) with
    | none => none
    | some numbers =>
      match numbers.getLast? with
      | none => none
      | some last =>
        if numbers.dropLast.any (fun n => decide (255 < n)) then none
        else if 256 ^ (5 - numbers.length) ≤ last then none
        else some (numbers.dropLast.foldl (fun acc n => acc * 256 + n) 0 *
          256 ^ (5 - numbers.length) + last)

/-- Dotted-decimal serialization of a 32-bit IPv4 address value. -/
def serializeIPv4 (ip : Nat) : List Char :=
  toDecimal (ip / 16777216 % 256) ++ '.' :: toDecimal (ip / 65536 % 256) ++
    '.' :: toDecimal (ip / 256 % 256) ++ '.' :: toDecimal (ip % 256)

/-- The WHATWG host parser on the (already lowercased) domain: a host that
ends in a number is parsed as IPv4 and re-serialized in dotted-decimal
form (failing when the IPv4 parse fails); any other host is kept as a
domain string. -/
def hostResult (domain : List Char) : Option String :=
  if endsInNumber domain then
    match parseIPv4 domain with
    | none => none
    | some ip => some (String.mk (serializeIPv4 ip))
  else some (String.mk domain)

/-- WHATWG port normalization: the explicit port digits are parsed as a
number; a port equal to the scheme's default (80 for `http:`, 443 for
`https:`) is elided to the empty string, any other port is serialized in
canonical decimal form (stripping leading zeros). -/
def normalizePort (proto : String) (value : Nat) : String :=
  if (proto = "http:" ∧ value = 80) ∨ (proto = "https:" ∧ value = 443) then ""
  else String.mk (toDecimal value)

/-- The authority component: everything after the scheme up to the first
`/`, `?` or `#`. -/
def authorityOf (rest : List Char) : List Char :=
  rest.takeWhile (fun c => !(isAuthorityEnd c))

/-- The characters after the first `:` of the authority (the explicit port
component), `none` when the authority has no colon. -/
def portSplit (auth : List Char) : Option (List Char) :=
  match auth.dropWhile (fun c => !(c == ':')) with
  | [] => none
  | _ :: t => some t

/-- The host part of the authority: everything before the first `:`. -/
def hostChars (rest : List Char) : List Char :=
  (authorityOf rest).takeWhile (fun c => !(c == ':'))

/-- Model of the `new URL(s)` constructor of Node's `url` module on strings
carrying an `http`/`https` scheme: split off the scheme, take the authority
up to the first `/`, `?` or `#`, split host from port at the first `:`,
validate the port, reject empty hosts and forbidden host code points,
lowercase the host and run the WHATWG host parser (IPv4 handling), apply
port normalization, and default the path to `/`. Returns `none` where the
constructor throws `ERR_INVALID_URL`. -/
def newURL (s : String) : Option URLRec :=
  match schemeOf s.data with
  | none => none
  | some (proto, rest) =>
    match parsePort (portSplit (authorityOf rest)) with
    | none => none
    | some port =>
      if hostChars rest = [] then none
      else if (hostChars rest).any isHostForbidden then none
      else
        match hostResult ((hostChars rest).map Char.toLower) with
        | none => none
        | some hostStr =>
          some { protocol := proto
                 hostname := hostStr
                 port := match port with
                   | none => ""
                   | some ds => normalizePort proto (digitsToNat ds)
                 pathname := mkPathname (rest.dropWhile (fun c => !(isAuthorityEnd c))) }

/-- The test `/^https?:\/\//i.test(inputUrl)` from `parseUrl`
(platform.ts line 185). -/
def hasHttpScheme (s : String) : Bool :=
  (schemeOf s.data).isSome

/-- `parseUrl` (platform.ts lines 182-201): prepend `http://` when the
input does not already start with an `http(s)://` scheme, parse, then fill
in the default port 80/443 when no port is present. `none` models the
`TypeError` thrown by the `URL` constructor escaping `parseUrl`. -/
def parseUrl (inputUrl : String) : Option URLRec :=
  let url? := if !hasHttpScheme inputUrl then newURL ("http://" ++ inputUrl)
              else newURL inputUrl
  match url? with
  | none => none
  | some url =>
    if url.port = "" then
      if url.protocol = "http:" then some { url with port := "80" }
      else if url.protocol = "https:" then some { url with port := "443" }
      else some url
    else some url

example : parseUrl "192.168.1.1" =
    some { protocol := "http:", hostname := "192.168.1.1", port := "80", pathname := "/" } := by
  decide

example : parseUrl "HTTPS://Example.com" =
    some { protocol := "https:", hostname := "example.com", port := "443", pathname := "/" } := by
  decide

example : parseUrl "example.com:8080/admin" =
    some { protocol := "http:", hostname := "example.com", port := "8080", pathname := "/admin" } := by
  decide

example : parseUrl "a b" = none := by decide

example : parseUrl "" = none := by decide

example : parseUrl "http://" = none := by decide

example : parseUrl "example.com:0080" =
    some { protocol := "http:", hostname := "example.com", port := "80", pathname := "/" } := by
  decide

example : parseUrl "0x7f.1" =
    some { protocol := "http:", hostname := "127.0.0.1", port := "80", pathname := "/" } := by
  decide

example : parseUrl "1.2.3.4.5" = none := by decide

example : parseUrl "192.168.1.256" = none := by decide

/-! ### Reachability prober (`getRouterStatus`, platform.ts lines 203-231) -/

/-- Outcome of the single HTTP(S) GET issued by a probe: either a response
object reaches the callback (its `statusCode` field may be `undefined`,
modelled by `none`), or the request's `error` event fires with a
transport-level error (DNS failure, connection refused, timeout, reset). -/
inductive NetworkEvent where
  | response (statusCode : Option Nat)
  | transportError (msg : String)
deriving DecidableEq, Repr

/-- `getRouterStatus` (platform.ts lines 203-231) as a function of the
input URL and the network event its request produces. The returned promise
is modelled by `Except String Bool`: `Except.ok` is resolution,
`Except.error` rejection. A response with a (truthy) status code in
`[400, 600)` resolves `false`, any other response resolves `true`; the
`error` event rejects with the error. A `TypeError` thrown by `parseUrl`
inside the promise executor also rejects the promise. (JavaScript's
truthiness test `res.statusCode && ...` only excludes `undefined` and `0`;
`0` fails `>= 400` anyway, so the guard below is equivalent.) -/
def getRouterStatus (inputUrl : String) (ev : NetworkEvent) : Except String Bool :=
  match parseUrl inputUrl with
  | none => Except.error "Invalid URL"
  | some _ =>
    match ev with
    | NetworkEvent.response statusCode =>
      match statusCode with
      | some code => if 400 ≤ code ∧ code < 600 then Except.ok false else Except.ok true
      | none => Except.ok true
    | NetworkEvent.transportError msg => Except.error msg

example : getRouterStatus "192.168.1.1" (NetworkEvent.response (some 200)) = Except.ok true := rfl
example : getRouterStatus "192.168.1.1" (NetworkEvent.response (some 503)) = Except.ok false := rfl
example : getRouterStatus "192.168.1.1" (NetworkEvent.transportError "ECONNREFUSED") =
    Except.error "ECONNREFUSED" := rfl

/-! ### Scheduler tick and on-demand read (platform.ts lines 101-149) -/

/-- The two values of the `WiFiSatelliteStatus` characteristic pushed by
the plugin (`CONNECTED` / `NOT_CONNECTED`). -/
inductive SatelliteStatus where
  | connected
  | notConnected
deriving DecidableEq, Repr

/-- The `onGet` handler (platform.ts lines 103-113): await the probe and
map `true`/`false` to `CONNECTED`/`NOT_CONNECTED`; any rejection is caught
and answered with `NOT_CONNECTED`. -/
def onGetResult (homepageUrl : String) (ev : NetworkEvent) : SatelliteStatus :=
  match getRouterStatus homepageUrl ev with
  | Except.ok status =>
    if status then SatelliteStatus.connected else SatelliteStatus.notConnected
  | Except.error _ => SatelliteStatus.notConnected

/-- The body of the `setInterval` callback (platform.ts lines 124-149)
acting on the characteristic's reported value (`none` = never updated):
on resolution, `updateValue` pushes the mapped status; on rejection, the
`catch` block only logs and the reported value is left untouched. -/
def tickUpdate (probe : Except String Bool) (prev : Option SatelliteStatus) :
    Option SatelliteStatus :=
  match probe with
  | Except.ok status =>
    some (if status then SatelliteStatus.connected else SatelliteStatus.notConnected)
  | Except.error _ => prev

/-- One firing of a device's repeating timer, given the network event its
probe produces. -/
def scheduledTick (homepageUrl : String) (ev : NetworkEvent)
    (prev : Option SatelliteStatus) : Option SatelliteStatus :=
  tickUpdate (getRouterStatus homepageUrl ev) prev

/-- A run of consecutive timer firings: the timer fires once per listed
network event, each tick's outcome feeding the next. -/
def runTicks (homepageUrl : String) (evs : List NetworkEvent)
    (prev : Option SatelliteStatus) : Option SatelliteStatus :=
  evs.foldl (fun st ev => scheduledTick homepageUrl ev st) prev

example : runTicks "192.168.1.1"
    [NetworkEvent.response (some 200), NetworkEvent.transportError "ECONNRESET"] none =
    some SatelliteStatus.connected := by decide

/-! ### Polling interval (platform.ts lines 115-121) -/

/-- JavaScript's `parseInt(s, 10)`: skip leading whitespace, read an
optional sign and then a maximal run of decimal digits; `NaN` (modelled by
`none`) when no digit is read. -/
def parseIntJs (s : String) : Option Int :=
  let cs := s.data.dropWhile Char.isWhitespace
  match cs with
  | [] => none
  | c :: rest =>
    let signedBody : Bool × List Char :=
      if c = '-' then (true, rest)
      else if c = '+' then (false, rest)
      else (false, c :: rest)
    let ds := signedBody.2.takeWhile Char.isDigit
    if ds = [] then none
    else some (if signedBody.1 then -(digitsToNat ds : Int) else (digitsToNat ds : Int))

/-- The effective polling period (platform.ts lines 115-121):
`parseInt(router.pollingInterval ?? 'NaN', 10)`, falling back to 5000 when
the result `isNaN`. -/
def effectivePollingInterval (pollingInterval : Option String) : Int :=
  match parseIntJs (pollingInterval.getD "NaN") with
  | none => 5000
  | some n => n

example : effectivePollingInterval none = 5000 := by decide
example : effectivePollingInterval (some "abc") = 5000 := by decide
example : effectivePollingInterval (some "2500") = 2500 := by decide
example : effectivePollingInterval (some "-10") = -10 := by decide
example : effectivePollingInterval (some "0") = 0 := by decide

/-! ### Accessory reconciliation (`discoverDevices`, platform.ts lines 53-180) -/

/-- One entry of `config.routers` (the `RouterConfig` interface,
platform.ts lines 16-24). -/
structure RouterConfig where
  name : String
  homepageUrl : String
  manufacturer : Option String := none
  model : Option String := none
  serial : Option String := none
  firmwareRevision : Option String := none
  pollingInterval : Option String := none
deriving DecidableEq, Repr

/-- A cached `PlatformAccessory` as far as reconciliation observes it:
its display name and its UUID. -/
structure PlatformAccessory where
  displayName : String
  uuid : String
deriving DecidableEq, Repr

/-- `this.api.hap.uuid.generate`, a deterministic identifier derived from
the seed string; modelled as the seed itself (the generator is a pure hash,
injective on the seeds this plugin uses). -/
def uuidGenerate (seed : String) : String := seed

/-- The identity key and UUID of a configured router
(platform.ts lines 57-59): `uuid.generate('homepageUrl_' + homepageUrl)`. -/
def routerUuid (router : RouterConfig) : String :=
  uuidGenerate ("homepageUrl_" ++ router.homepageUrl)

/-- `new this.api.platformAccessory(router.name, uuid)`
(platform.ts line 64). -/
def newAccessory (router : RouterConfig) : PlatformAccessory :=
  { displayName := router.name, uuid := routerUuid router }

/-- What one pass of `discoverDevices` does to the accessory registry:
the accessories reused from cache (`keep`), the freshly created ones
(`added`), and the argument lists of the individual
`registerPlatformAccessories` / `unregisterPlatformAccessories` calls, in
order (each call registers or unregisters one batch of accessories). -/
structure DiscoverResult where
  keep : List PlatformAccessory := []
  added : List PlatformAccessory := []
  registerCalls : List (List PlatformAccessory) := []
  unregisterCalls : List (List PlatformAccessory) := []
deriving DecidableEq, Repr

/-- The body of the `for (const router of routers)` loop
(platform.ts lines 56-156) restricted to its registry effects: look up a
cached accessory by UUID; reuse it when found, otherwise create a new one
and call `registerPlatformAccessories` with the singleton list
`[accessory]`. -/
def discoverStep (accessories : List PlatformAccessory) (acc : DiscoverResult)
    (router : RouterConfig) : DiscoverResult :=
  let uuid := routerUuid router
  match accessories.find? (fun a => a.uuid = uuid) with
  | some existing => { acc with keep := acc.keep ++ [existing] }
  | none =>
    let fresh := newAccessory router
    { acc with
      added := acc.added ++ [fresh]
      registerCalls := acc.registerCalls ++ [[fresh]] }

/-- The removal loop (platform.ts lines 158-179): every cached accessory
whose UUID matches no configured router is passed to
`unregisterPlatformAccessories` as the singleton list `[accessory]`. -/
def removalCalls (routers : List RouterConfig) (accessories : List PlatformAccessory) :
    List (List PlatformAccessory) :=
  (accessories.filter (fun a => !(routers.any (fun r => routerUuid r = a.uuid)))).map
    (fun a => [a])

/-- `discoverDevices` (platform.ts lines 53-180) restricted to its registry
effects: the router loop followed by the removal loop. -/
def discoverDevices (routers : List RouterConfig) (accessories : List PlatformAccessory) :
    DiscoverResult :=
  let afterLoop := routers.foldl (discoverStep accessories) {}
  { afterLoop with unregisterCalls := removalCalls routers accessories }

/-- Concrete router `A` used in the reconciliation scenarios. -/
def routerA : RouterConfig := { name := "Router A", homepageUrl := "192.168.1.1" }

/-- Concrete router `B` used in the reconciliation scenarios. -/
def routerB : RouterConfig := { name := "Router B", homepageUrl := "192.168.2.1" }

/-- The cached accessory corresponding to `routerA`. -/
def accessoryA : PlatformAccessory := newAccessory routerA

/-- The cached accessory corresponding to `routerB`. -/
def accessoryB : PlatformAccessory := newAccessory routerB

example : discoverDevices [routerA, routerB] [accessoryA] =
    { keep := [accessoryA], added := [accessoryB],
      registerCalls := [[accessoryB]], unregisterCalls := [] } := by decide

example : discoverDevices [routerB] [accessoryA, accessoryB] =
    { keep := [accessoryB], added := [], registerCalls := [],
      unregisterCalls := [[accessoryA]] } := by decide

/-! ### Helper lemmas -/

theorem schemeOf_httpPrepend (l : List Char) :
    schemeOf ("http://".data ++ l) = some ("http:", l) := rfl

theorem schemeOf_proto {cs : List Char} {proto : String} {rest : List Char}
    (h : schemeOf cs = some (proto, rest)) : proto = "http:" ∨ proto = "https:" := by
  unfold schemeOf at h
  split at h
  · exact Or.inl (by injection h with h'; exact (congrArg Prod.fst h').symm)
  · split at h
    · exact Or.inr (by injection h with h'; exact (congrArg Prod.fst h').symm)
    · exact absurd h (by simp)

theorem newURL_protocol {s : String} {proto : String} {rest : List Char} {u : URLRec}
    (hs : schemeOf s.data = some (proto, rest)) (h : newURL s = some u) :
    u.protocol = proto := by
  unfold newURL at h
  rw [hs] at h
  simp only at h
  split at h
  · exact absurd h (by simp)
  · split at h
    · exact absurd h (by simp)
    · split at h
      · exact absurd h (by simp)
      · split at h
        · exact absurd h (by simp)
        · injection h with h'
          rw [h'.symm]

/-- The default-port filling step at the end of `parseUrl`
(platform.ts lines 192-198). -/
def fillDefaultPort (url : URLRec) : URLRec :=
  if url.port = "" then
    if url.protocol = "http:" then { url with port := "80" }
    else if url.protocol = "https:" then { url with port := "443" }
    else url
  else url

theorem parseUrl_eq (s : String) :
    parseUrl s = Option.map fillDefaultPort
      (if !hasHttpScheme s then newURL ("http://" ++ s) else newURL s) := by
  unfold parseUrl fillDefaultPort
  cases (if !hasHttpScheme s then newURL ("http://" ++ s) else newURL s) with
  | none => rfl
  | some url =>
    simp only [Option.map_some']
    by_cases hp : url.port = ""
    · by_cases h1 : url.protocol = "http:"
      · simp [hp, h1]
      · by_cases h2 : url.protocol = "https:" <;> simp [hp, h1, h2]
    · simp [hp]

theorem fillDefaultPort_protocol (url : URLRec) :
    (fillDefaultPort url).protocol = url.protocol := by
  unfold fillDefaultPort
  split
  · split
    · rfl
    · split <;> rfl
  · rfl

/-- The accessories reused from cache by the router loop, in configuration
order: the cache hits of `find?` by UUID. -/
def keepList (accessories : List PlatformAccessory) (routers : List RouterConfig) :
    List PlatformAccessory :=
  routers.filterMap (fun r => accessories.find? (fun a => a.uuid = routerUuid r))

/-- The accessories created by the router loop, in configuration order: one
fresh accessory per configured router that misses the cache. -/
def addList (accessories : List PlatformAccessory) (routers : List RouterConfig) :
    List PlatformAccessory :=
  routers.filterMap (fun r =>
    match accessories.find? (fun a => a.uuid = routerUuid r) with
    | some _ => none
    | none => some (newAccessory r))

theorem foldl_discoverStep (accessories : List PlatformAccessory) :
    ∀ (routers : List RouterConfig) (acc : DiscoverResult),
    routers.foldl (discoverStep accessories) acc =
      { keep := acc.keep ++ keepList accessories routers
        added := acc.added ++ addList accessories routers
        registerCalls := acc.registerCalls ++ (addList accessories routers).map (fun a => [a])
        unregisterCalls := acc.unregisterCalls }
  | [], acc => by simp [keepList, addList]
  | r :: rs, acc => by
    rw [List.foldl_cons, foldl_discoverStep accessories rs]
    unfold discoverStep keepList addList
    cases h : accessories.find? (fun a => a.uuid = routerUuid r) <;>
      simp [h, List.filterMap_cons]

/-! ### Claims -/

/-- C3: for every response received by `getRouterStatus` on a parsable URL,
a status code in `[100, 399]` resolves the promise with `true` (Connected),
a status code in `[400, 599]` resolves it with `false` (NotConnected), and
a transport error (no response) rejects the promise instead of returning a
status. -/
theorem c3_probe_classification (url : String) (u : URLRec) (h : parseUrl url = some u) :
    (∀ code, 100 ≤ code → code ≤ 399 →
      getRouterStatus url (NetworkEvent.response (some code)) = Except.ok true) ∧
    (∀ code, 400 ≤ code → code ≤ 599 →
      getRouterStatus url (NetworkEvent.response (some code)) = Except.ok false) ∧
    (∀ msg, getRouterStatus url (NetworkEvent.transportError msg) = Except.error msg) := by
  unfold getRouterStatus
  rw [h]
  refine ⟨fun code h1 h2 => ?_, fun code h1 h2 => ?_, fun msg => rfl⟩
  · simp only
    rw [if_neg (by omega)]
  · simp only
    rw [if_pos (by omega)]

/-- Witness for C3 at the concrete URL `192.168.1.1` and status code 200. -/
theorem c3_witness :
    getRouterStatus "192.168.1.1" (NetworkEvent.response (some 200)) = Except.ok true :=
  (c3_probe_classification "192.168.1.1"
    { protocol := "http:", hostname := "192.168.1.1", port := "80", pathname := "/" }
    (by decide)).1 200 (by omega) (by omega)

/-- C10: on a parsable URL, a response whose status code is absent resolves
`true`, a response whose code lies outside `[400, 599]` (below 100 or at
600 and above included) resolves `true`, and the promise resolves `false`
exactly when the code is present and in `[400, 599]`. -/
theorem c10_response_default_connected (url : String) (u : URLRec)
    (h : parseUrl url = some u) :
    getRouterStatus url (NetworkEvent.response none) = Except.ok true ∧
    (∀ code, code < 400 ∨ 600 ≤ code →
      getRouterStatus url (NetworkEvent.response (some code)) = Except.ok true) ∧
    (∀ code, getRouterStatus url (NetworkEvent.response (some code)) = Except.ok false ↔
      400 ≤ code ∧ code < 600) := by
  unfold getRouterStatus
  rw [h]
  refine ⟨rfl, fun code hc => ?_, fun code => ?_⟩
  · simp only
    rw [if_neg (by omega)]
  · simp only
    constructor
    · intro he
      by_contra hn
      rw [if_neg hn] at he
      simp at he
    · intro hc
      rw [if_pos hc]

/-- Witness for C10 at the concrete URL `192.168.1.1` and status code 604. -/
theorem c10_witness :
    getRouterStatus "192.168.1.1" (NetworkEvent.response (some 604)) = Except.ok true :=
  (c10_response_default_connected "192.168.1.1"
    { protocol := "http:", hostname := "192.168.1.1", port := "80", pathname := "/" }
    (by decide)).2.1 604 (by omega)

/-- C8: the polling period is `pollingInterval` parsed as an integer; an
absent or non-numeric value (e.g. `"abc"`) falls back to 5000 ms without
crashing, and no minimum is enforced — `0` and negative values pass
through to the timer as-is. -/
theorem c8_polling_interval :
    effectivePollingInterval none = 5000 ∧
    effectivePollingInterval (some "abc") = 5000 ∧
    (∀ s n, parseIntJs s = some n → effectivePollingInterval (some s) = n) ∧
    (∀ s, parseIntJs s = none → effectivePollingInterval (some s) = 5000) ∧
    effectivePollingInterval (some "0") = 0 ∧
    effectivePollingInterval (some "-300") = -300 := by
  refine ⟨by decide, by decide, fun s n h => ?_, fun s h => ?_, by decide, by decide⟩ <;>
    simp [effectivePollingInterval, h]

/-- Witness for C8 at the concrete configured value `"1234"`. -/
theorem c8_witness : effectivePollingInterval (some "1234") = 1234 :=
  c8_polling_interval.2.2.1 "1234" 1234 (by decide)

/-- C9: the `onGet` handler answers every probe outcome with `CONNECTED`
or `NOT_CONNECTED` (it never propagates an error to the host framework);
a rejected probe yields `NOT_CONNECTED`, a `[100, 399]` response yields
`CONNECTED`, and a `[400, 599]` response yields `NOT_CONNECTED`. -/
theorem c9_onget_degrades :
    (∀ url ev, onGetResult url ev = SatelliteStatus.connected ∨
      onGetResult url ev = SatelliteStatus.notConnected) ∧
    (∀ url msg,
      onGetResult url (NetworkEvent.transportError msg) = SatelliteStatus.notConnected) ∧
    (∀ url u code, parseUrl url = some u → 100 ≤ code → code ≤ 399 →
      onGetResult url (NetworkEvent.response (some code)) = SatelliteStatus.connected) ∧
    (∀ url u code, parseUrl url = some u → 400 ≤ code → code ≤ 599 →
      onGetResult url (NetworkEvent.response (some code)) = SatelliteStatus.notConnected) := by
  refine ⟨fun url ev => ?_, fun url msg => ?_,
    fun url u code h h1 h2 => ?_, fun url u code h h1 h2 => ?_⟩
  · unfold onGetResult
    cases getRouterStatus url ev with
    | ok status => cases status <;> simp
    | error e => simp
  · unfold onGetResult getRouterStatus
    cases parseUrl url <;> rfl
  · unfold onGetResult getRouterStatus
    rw [h]
    simp only
    rw [if_neg (by omega)]
    rfl
  · unfold onGetResult getRouterStatus
    rw [h]
    simp only
    rw [if_pos (by omega)]
    rfl

/-- Witness for C9 at the concrete URL `192.168.1.1` and status code 500. -/
theorem c9_witness :
    onGetResult "192.168.1.1" (NetworkEvent.response (some 500)) =
      SatelliteStatus.notConnected :=
  c9_onget_degrades.2.2.2 "192.168.1.1"
    { protocol := "http:", hostname := "192.168.1.1", port := "80", pathname := "/" }
    500 (by decide) (by omega) (by omega)

/-- C1 counterexample: on a periodic tick whose probe raises a transport
error, the reported status is NOT updated to NotConnected — the `catch`
block of the `setInterval` callback only logs, so a previously reported
Connected survives the failed tick. -/
theorem c1_counterexample :
    scheduledTick "192.168.1.1" (NetworkEvent.transportError "ECONNREFUSED")
        (some SatelliteStatus.connected) = some SatelliteStatus.connected ∧
    scheduledTick "192.168.1.1" (NetworkEvent.transportError "ECONNREFUSED")
        (some SatelliteStatus.connected) ≠ some SatelliteStatus.notConnected := by
  decide

/-- C1 (amended): on a periodic tick the scheduler catches a probe
rejection and leaves the reported status unchanged (it only logs); the
repeating timer keeps firing on subsequent periods — a failing tick never
terminates the loop, and later successful ticks update the status again. -/
theorem c1_tick_error_contained :
    (∀ url msg prev,
      scheduledTick url (NetworkEvent.transportError msg) prev = prev) ∧
    (∀ url msg evs prev,
      runTicks url (NetworkEvent.transportError msg :: evs) prev = runTicks url evs prev) ∧
    runTicks "192.168.1.1"
      [NetworkEvent.response (some 200), NetworkEvent.transportError "ECONNRESET",
       NetworkEvent.response (some 500)] none = some SatelliteStatus.notConnected := by
  have herr : ∀ url msg prev,
      scheduledTick url (NetworkEvent.transportError msg) prev = prev := by
    intro url msg prev
    unfold scheduledTick getRouterStatus tickUpdate
    cases parseUrl url <;> rfl
  refine ⟨herr, fun url msg evs prev => ?_, by decide⟩
  unfold runTicks
  rw [List.foldl_cons, herr]

/-- C2 counterexample: reconciling two new routers against an empty cache
issues two `registerPlatformAccessories` calls (one singleton call per
device), not a single call batching both additions; symmetrically, two
stale accessories trigger two `unregisterPlatformAccessories` calls. -/
theorem c2_counterexample :
    (discoverDevices [routerA, routerB] []).added.length = 2 ∧
    (discoverDevices [routerA, routerB] []).registerCalls.length = 2 ∧
    (discoverDevices [routerA, routerB] []).registerCalls ≠
      [(discoverDevices [routerA, routerB] []).added] ∧
    (discoverDevices [] [accessoryA, accessoryB]).unregisterCalls.length = 2 := by
  decide

/-- C2 (amended): every reconciliation pass invokes the framework
registration once per added device — each call carrying exactly that one
accessory as a singleton batch — and the unregistration once per removed
accessory, also with a singleton batch; kept devices trigger no
registration call. -/
theorem c2_register_per_device (routers : List RouterConfig)
    (accessories : List PlatformAccessory) :
    (discoverDevices routers accessories).registerCalls =
      ((discoverDevices routers accessories).added).map (fun a => [a]) ∧
    (discoverDevices routers accessories).registerCalls.length =
      (discoverDevices routers accessories).added.length ∧
    (discoverDevices routers accessories).unregisterCalls =
      (accessories.filter
        (fun a => !(routers.any (fun r => routerUuid r = a.uuid)))).map (fun a => [a]) := by
  have hd : discoverDevices routers accessories =
      { keep := keepList accessories routers
        added := addList accessories routers
        registerCalls := (addList accessories routers).map (fun a => [a])
        unregisterCalls := removalCalls routers accessories } := by
    unfold discoverDevices
    rw [foldl_discoverStep]
    simp
  rw [hd]
  exact ⟨rfl, by simp, rfl⟩

/-- C5: reconciliation is a set-difference over identity keys. Concretely,
configured `[A, B]` against known `{A}` keeps `A`, adds `B`, removes
nothing; configured `[B]` against known `{A, B}` keeps `B` and removes
`A`. In general a configured device whose identity key hits the cache
reuses the cached handle, one with no hit gets a newly created accessory,
and every known accessory whose key matches no configured device is
unregistered. -/
theorem c5_reconciliation :
    (discoverDevices [routerA, routerB] [accessoryA] =
      { keep := [accessoryA], added := [accessoryB],
        registerCalls := [[accessoryB]], unregisterCalls := [] }) ∧
    (discoverDevices [routerB] [accessoryA, accessoryB] =
      { keep := [accessoryB], added := [], registerCalls := [],
        unregisterCalls := [[accessoryA]] }) ∧
    (∀ routers accessories r a, r ∈ routers →
      accessories.find? (fun x => x.uuid = routerUuid r) = some a →
      a ∈ (discoverDevices routers accessories).keep) ∧
    (∀ routers accessories r, r ∈ routers →
      accessories.find? (fun x => x.uuid = routerUuid r) = none →
      newAccessory r ∈ (discoverDevices routers accessories).added) ∧
    (∀ routers accessories a, a ∈ accessories →
      (∀ r ∈ routers, routerUuid r ≠ a.uuid) →
      [a] ∈ (discoverDevices routers accessories).unregisterCalls) := by
  refine ⟨by decide, by decide,
    fun routers accessories r a hr hf => ?_,
    fun routers accessories r hr hf => ?_,
    fun routers accessories a ha hnone => ?_⟩
  · have hk : (discoverDevices routers accessories).keep = keepList accessories routers := by
      unfold discoverDevices
      rw [foldl_discoverStep]
      simp
    rw [hk]
    exact List.mem_filterMap.mpr ⟨r, hr, hf⟩
  · have hk : (discoverDevices routers accessories).added = addList accessories routers := by
      unfold discoverDevices
      rw [foldl_discoverStep]
      simp
    rw [hk]
    exact List.mem_filterMap.mpr ⟨r, hr, by rw [hf]⟩
  · show [a] ∈ removalCalls routers accessories
    unfold removalCalls
    refine List.mem_map.mpr ⟨a, List.mem_filter.mpr ⟨ha, ?_⟩, rfl⟩
    simp only [Bool.not_eq_eq_eq_not, Bool.not_true, List.any_eq_false, decide_eq_true_eq]
    exact hnone

/-- Witness for C5: reusing the cached accessory of router `A`. -/
theorem c5_witness : accessoryA ∈ (discoverDevices [routerA] [accessoryA]).keep :=
  c5_reconciliation.2.2.1 [routerA] [accessoryA] routerA accessoryA (by decide) (by decide)

theorem parseUrl_some_elim {s : String} {u : URLRec} (h : parseUrl s = some u) :
    ∃ u0, (if !hasHttpScheme s then newURL ("http://" ++ s) else newURL s) = some u0 ∧
      u = fillDefaultPort u0 := by
  rw [parseUrl_eq] at h
  cases hN : (if !hasHttpScheme s then newURL ("http://" ++ s) else newURL s) with
  | none => rw [hN] at h; simp at h
  | some u0 =>
    rw [hN] at h
    simp only [Option.map_some'] at h
    exact ⟨u0, rfl, (Option.some.inj h).symm⟩

/-- C6: every input that does not start with `http://` or `https://`
(case-insensitively, i.e. `hasHttpScheme` is false) normalizes to scheme
`http:`; every input carrying an explicit scheme keeps that scheme,
case-normalized to lowercase (`schemeOf` recognizes the prefix
case-insensitively and yields the lowercase `http:`/`https:`). -/
theorem c6_scheme_defaulting (s : String) (u : URLRec) (h : parseUrl s = some u) :
    (hasHttpScheme s = false → u.protocol = "http:") ∧
    (∀ proto rest, schemeOf s.data = some (proto, rest) → u.protocol = proto) := by
  obtain ⟨u0, hN, hu⟩ := parseUrl_some_elim h
  constructor
  · intro hns
    rw [hns] at hN
    simp only [Bool.not_false, if_true] at hN
    have hs' : schemeOf (("http://" ++ s).data) = some ("http:", s.data) := by
      rw [String.data_append]
      exact schemeOf_httpPrepend s.data
    have hp : u0.protocol = "http:" := newURL_protocol hs' hN
    rw [hu, fillDefaultPort_protocol, hp]
  · intro proto rest hs
    have hT : hasHttpScheme s = true := by unfold hasHttpScheme; rw [hs]; rfl
    rw [hT] at hN
    simp only [Bool.not_true, Bool.false_eq_true, if_false] at hN
    rw [hu, fillDefaultPort_protocol]
    exact newURL_protocol hs hN

/-- Witness for C6 at the concrete input `HTTPS://Example.com`: the
explicit scheme is kept and lowercased. -/
theorem c6_witness :
    ({ protocol := "https:", hostname := "example.com", port := "443",
       pathname := "/" } : URLRec).protocol = "https:" :=
  (c6_scheme_defaulting "HTTPS://Example.com"
      { protocol := "https:", hostname := "example.com", port := "443", pathname := "/" }
      (by decide)).2 "https:" "Example.com".data (by decide)

